import Mathlib

/-!
Verification of the request/response bridging layer of the ad-mcp-bridge-server
repository: a shallow embedding of the authentication selection, JSON-RPC
envelope construction, reply interpretation, payload projection and result
formatting logic of src/ad_mcp_bridge_server/odoo_client.py,
src/ad_mcp_bridge_server/server.py and src/ad_mcp_bridge_server/config.py,
together with theorems settling the specified properties.
-/

namespace Bridge

/-- JSON values as exchanged with the backend. Python dicts are modelled as
insertion-ordered association lists, Python None as null, and Python integers
as Int (booleans kept separate; isPyInt below accounts for bool being an int
subclass in Python). -/
inductive Json where
  | null : Json
  | bool (b : Bool) : Json
  | int (n : Int) : Json
  | str (s : String) : Json
  | arr (elems : List Json) : Json
  | obj (fields : List (String × Json)) : Json

/-- First-match lookup in a Python dict modelled as an ordered association
list; models dict.get with default None as well as key membership tests. -/
def dictGet : List (String × Json) → String → Option Json
  | [], _ => none
  | (k0, v0) :: rest, k => if k0 == k then some v0 else dictGet rest k

/-- Python dict assignment d[k] = v: replace the value of an existing key in
place, or append a new binding at the end. -/
def setKey : List (String × Json) → String → Json → List (String × Json)
  | [], k, v => [(k, v)]
  | (k0, v0) :: rest, k, v =>
    if k0 == k then (k0, v) :: rest else (k0, v0) :: setKey rest k v

/-- Lookup on a Json value that is expected to be an object. -/
def jGet (j : Json) (k : String) : Option Json :=
  match j with
  | Json.obj d => dictGet d k
  | _ => none

/-- Python truthiness of a JSON value: None, False, 0, empty string, empty
list and empty dict are falsy. -/
def truthy : Json → Bool
  | Json.null => false
  | Json.bool b => b
  | Json.int n => n != 0
  | Json.str s => s != ""
  | Json.arr l => !l.isEmpty
  | Json.obj d => !d.isEmpty

/-- Python truthiness of an optional string attribute (None and the empty
string are falsy). -/
def truthyS : Option String → Bool
  | some s => s != ""
  | none => false

/-- Python isinstance(v, int): true for int values and for booleans, because
bool is a subclass of int in Python. -/
def isPyInt : Json → Bool
  | Json.int _ => true
  | Json.bool _ => true
  | _ => false

/-- The skip condition of the formatters (server.py lines 462-463 and
493-494): value is None or value equals the empty string or value is False. -/
def skipVal : Json → Bool
  | Json.null => true
  | Json.str s => s == ""
  | Json.bool b => b == false
  | _ => false

mutual

/-- Python repr() of a JSON value: dict and list syntax with single-quoted
strings, True/False/None for the scalar constants. -/
def pyRepr : Json → String
  | Json.null => "None"
  | Json.bool b => if b then "True" else "False"
  | Json.int n => toString n
  | Json.str s => "\x27" ++ s ++ "\x27"
  | Json.arr l => "[" ++ String.intercalate ", " (pyReprArr l) ++ "]"
  | Json.obj d => "\x7b" ++ String.intercalate ", " (pyReprObj d) ++ "\x7d"

/-- Helper for pyRepr on list elements. -/
def pyReprArr : List Json → List String
  | [] => []
  | x :: xs => pyRepr x :: pyReprArr xs

/-- Helper for pyRepr on dict entries. -/
def pyReprObj : List (String × Json) → List String
  | [] => []
  | kv :: xs => ("\x27" ++ kv.1 ++ "\x27: " ++ pyRepr kv.2) :: pyReprObj xs

end

/-- Python str() of a JSON value, as used by f-string interpolation: strings
render bare, everything else as its repr. -/
def pyStr (j : Json) : String :=
  match j with
  | Json.str s => s
  | _ => pyRepr j

/-- Outcome of running a piece of the Python code: a returned value, a raised
OdooError carrying its message string, or an uncaught exception of another
class (TypeError/AttributeError) raised by operating on a value of an
unexpected shape. -/
inductive PyResult (α : Type) where
  | ok : α → PyResult α
  | odooError : String → PyResult α
  | exn : PyResult α

/-- Sequencing of Python statements: a raised error propagates. -/
def PyResult.bind {α β : Type} : PyResult α → (α → PyResult β) → PyResult β
  | PyResult.ok a, f => f a
  | PyResult.odooError m, _ => PyResult.odooError m
  | PyResult.exn, _ => PyResult.exn

/-- State of an OdooClient instance (odoo_client.py lines 14-30) relevant to
request construction. -/
structure OdooClient where
  url : String
  db : Option String
  api_key : Option String
  user : Option String
  password : Option String
  timeout : Int

/-- Authentication injection of OdooClient._request (odoo_client.py lines
36-41): if the api_key attribute is truthy it is assigned into the params
dict; otherwise, if both user and password are truthy, those two are
assigned; otherwise the params are left untouched. -/
def requestParams (c : OdooClient) (params : List (String × Json)) :
    List (String × Json) :=
  if truthyS c.api_key then
    setKey params "api_key" (Json.str (c.api_key.getD ""))
  else if truthyS c.user && truthyS c.password then
    setKey (setKey params "user" (Json.str (c.user.getD "")))
      "password" (Json.str (c.password.getD ""))
  else params

/-- JSON-RPC envelope built by OdooClient._request (odoo_client.py lines
43-48). -/
def requestEnvelope (c : OdooClient) (params : List (String × Json)) : Json :=
  Json.obj [("jsonrpc", Json.str "2.0"), ("method", Json.str "call"),
            ("params", Json.obj (requestParams c params)), ("id", Json.int 1)]

/-- Target URL of OdooClient._request (odoo_client.py line 34). -/
def requestUrl (c : OdooClient) (endpoint : String) : String :=
  c.url ++ "/mcp/" ++ endpoint

/-- Message computation of the protocol-level error branch (odoo_client.py
lines 60-64): for a dict error the message is error.get("data",
dict()).get("message", str(error)), which raises AttributeError when the data
member is present but not a dict; for a non-dict error the message is
str(error). -/
def errMsgOf (e : Json) : PyResult String :=
  match e with
  | Json.obj ed =>
    match (dictGet ed "data").getD (Json.obj []) with
    | Json.obj dd =>
      PyResult.ok (pyStr ((dictGet dd "message").getD (Json.str (pyStr e))))
    | _ => PyResult.exn
  | _ => PyResult.ok (pyStr e)

/-- Reply interpretation of OdooClient._request (odoo_client.py lines 57-67):
a reply with a top-level error key raises OdooError with the message prefixed
by "Odoo error: "; otherwise the returned payload is result.get("result",
dict()). A non-dict reply raises TypeError or AttributeError on the key
membership test, the indexing, or the .get call. -/
def interpretReply (r : Json) : PyResult Json :=
  match r with
  | Json.obj d =>
    match dictGet d "error" with
    | some e =>
      match errMsgOf e with
      | PyResult.ok m => PyResult.odooError ("Odoo error: " ++ m)
      | _ => PyResult.exn
    | none => PyResult.ok ((dictGet d "result").getD (Json.obj []))
  | _ => PyResult.exn

/-- Soft-error check shared by the facade operations (for example
odoo_client.py lines 89-90): if result.get("error") is truthy, raise
OdooError(result.get("message", "Unknown error")); a non-dict payload raises
AttributeError at the .get call. -/
def softCheck (payload : Json) : PyResult Json :=
  match payload with
  | Json.obj d =>
    if truthy ((dictGet d "error").getD Json.null) then
      PyResult.odooError (pyStr ((dictGet d "message").getD (Json.str "Unknown error")))
    else PyResult.ok payload
  | _ => PyResult.exn

/-- Payload projection result.get("data", dict()).get(key, dflt) used by the
facade operations; a data member that is present but not a dict raises
AttributeError. -/
def projectKey (payload : Json) (k : String) (dflt : Json) : PyResult Json :=
  match payload with
  | Json.obj d =>
    match (dictGet d "data").getD (Json.obj []) with
    | Json.obj dd => PyResult.ok ((dictGet dd k).getD dflt)
    | _ => PyResult.exn
  | _ => PyResult.exn

/-- OdooClient.get_server_info (odoo_client.py lines 82-84): returns the
interpreted payload directly, with no soft-error check. -/
def opInfo (r : Json) : PyResult Json :=
  interpretReply r

/-- OdooClient.list_models (odoo_client.py lines 86-91). -/
def opModels (r : Json) : PyResult Json :=
  PyResult.bind (interpretReply r) fun payload =>
    PyResult.bind (softCheck payload) fun p => projectKey p "models" (Json.arr [])

/-- OdooClient.get_fields (odoo_client.py lines 93-98). -/
def opFields (r : Json) : PyResult Json :=
  PyResult.bind (interpretReply r) fun payload =>
    PyResult.bind (softCheck payload) fun p => projectKey p "fields" (Json.arr [])

/-- OdooClient.search reply handling (odoo_client.py lines 119-121). -/
def opSearch (r : Json) : PyResult Json :=
  PyResult.bind (interpretReply r) fun payload =>
    PyResult.bind (softCheck payload) fun p => projectKey p "records" (Json.arr [])

/-- OdooClient.read reply handling (odoo_client.py lines 136-138). -/
def opRead (r : Json) : PyResult Json :=
  PyResult.bind (interpretReply r) fun payload =>
    PyResult.bind (softCheck payload) fun p => projectKey p "record" (Json.obj [])

/-- OdooClient.count reply handling (odoo_client.py lines 151-153). -/
def opCount (r : Json) : PyResult Json :=
  PyResult.bind (interpretReply r) fun payload =>
    PyResult.bind (softCheck payload) fun p => projectKey p "count" (Json.int 0)

/-- OdooClient.create reply handling (odoo_client.py lines 166-168): the final
.get("id") has no default argument, so a missing id yields Python None. -/
def opCreate (r : Json) : PyResult Json :=
  PyResult.bind (interpretReply r) fun payload =>
    PyResult.bind (softCheck payload) fun p => projectKey p "id" Json.null

/-- OdooClient.write reply handling (odoo_client.py lines 183-185). -/
def opWrite (r : Json) : PyResult Json :=
  PyResult.bind (interpretReply r) fun payload =>
    PyResult.bind (softCheck payload) fun _ => PyResult.ok (Json.bool true)

/-- OdooClient.unlink reply handling (odoo_client.py lines 198-200). -/
def opUnlink (r : Json) : PyResult Json :=
  PyResult.bind (interpretReply r) fun payload =>
    PyResult.bind (softCheck payload) fun _ => PyResult.ok (Json.bool true)

/-- OdooClient.execute reply handling (odoo_client.py lines 219-221): the
projection default is Python None. -/
def opExecute (r : Json) : PyResult Json :=
  PyResult.bind (interpretReply r) fun payload =>
    PyResult.bind (softCheck payload) fun p => projectKey p "result" Json.null

/-- Default of Settings.max_records (config.py lines 59-63). -/
def defaultMaxRecords : Int := 100

/-- Params assembled by OdooClient.search (odoo_client.py lines 110-118)
before auth injection, in keyword order; domain defaults to the empty list
when falsy. -/
def clientSearchParams (model : String) (domain fields : Json)
    (limit offset : Int) (order : Json) : List (String × Json) :=
  [("model", Json.str model),
   ("domain", if truthy domain then domain else Json.arr []),
   ("fields", fields),
   ("limit", Json.int limit),
   ("offset", Json.int offset),
   ("order", order)]

/-- Outgoing params of the search_records tool (server.py lines 90-99): the
caller limit is clamped with min against the configured maximum before the
client call, then auth fields are injected by _request. -/
def searchToolParams (c : OdooClient) (model : String) (domain fields order : Json)
    (limit offset maxRecords : Int) : List (String × Json) :=
  requestParams c (clientSearchParams model domain fields (min limit maxRecords) offset order)

/-- Classification of one record field by format_record (server.py lines
497-507), applied after the key-skip and falsy-value-skip checks: a
two-element list with an integer (or bool) first element is a relation
rendered as "label (ID: id)"; any other non-empty list is a collection
rendered with its count and a preview of the first five elements plus an
ellipsis marker when longer; scalars are basic; anything else is rendered
with str(). An empty list appends nothing. -/
inductive Rendering where
  | skip : Rendering
  | basic (s : String) : Rendering
  | relation (s : String) : Rendering
  | collection (s : String) : Rendering
  | other (s : String) : Rendering

/-- Field rendering of format_record (server.py lines 497-507). -/
def renderField (v : Json) : Rendering :=
  match v with
  | Json.arr l =>
    if l.length == 2 && isPyInt (l.headD Json.null) then
      Rendering.relation (pyStr (l.getD 1 Json.null) ++ " (ID: " ++ pyStr (l.headD Json.null) ++ ")")
    else if l.isEmpty then Rendering.skip
    else Rendering.collection (toString l.length ++ " items: " ++
      pyRepr (Json.arr (l.take 5)) ++ (if l.length > 5 then "..." else ""))
  | Json.str s => Rendering.basic s
  | Json.int n => Rendering.basic (toString n)
  | Json.bool b => Rendering.basic (if b then "True" else "False")
  | j => Rendering.other (pyStr j)

/-- Field grouping loop of format_record (server.py lines 487-507): returns
the basic, relation and other field lists in encounter order. -/
def groupFields : List (String × Json) →
    List (String × String) × List (String × String) × List (String × String)
  | [] => ([], [], [])
  | (k, v) :: rest =>
    let g := groupFields rest
    if k == "id" || k == "display_name" || k == "__last_update" then g
    else if skipVal v then g
    else
      match renderField v with
      | Rendering.basic s => ((k, s) :: g.1, g.2.1, g.2.2)
      | Rendering.relation s => (g.1, (k, s) :: g.2.1, g.2.2)
      | Rendering.collection s => (g.1, g.2.1, (k, s) :: g.2.2)
      | Rendering.other s => (g.1, g.2.1, (k, s) :: g.2.2)
      | Rendering.skip => g

/-- Record heading name (server.py lines 456 and 482): the display_name value
if truthy, else the name value if truthy, else "ID " followed by the id. -/
def headingName (rec : List (String × Json)) (recId : Json) : String :=
  let dn := (dictGet rec "display_name").getD Json.null
  if truthy dn then pyStr dn
  else
    let nm := (dictGet rec "name").getD Json.null
    if truthy nm then pyStr nm
    else "ID " ++ pyStr recId

/-- Bullet line for one formatted field. -/
def fieldLine (kv : String × String) : String :=
  "- **" ++ kv.1 ++ "**: " ++ kv.2

/-- format_record (server.py lines 479-524). -/
def format_record (model : String) (rec : List (String × Json)) : String :=
  let recId := (dictGet rec "id").getD (Json.str "?")
  let nm := headingName rec recId
  let g := groupFields rec
  let lines0 := ["# " ++ model ++ ": " ++ nm ++ " (ID: " ++ pyStr recId ++ ")\n"]
  let lines1 := lines0 ++
    (if g.1.isEmpty then [] else "## Basic Information" :: g.1.map fieldLine)
  let lines2 := lines1 ++
    (if g.2.1.isEmpty then [] else "\n## Related Records" :: g.2.1.map fieldLine)
  let lines3 := lines2 ++
    (if g.2.2.isEmpty then [] else "\n## Other Data" :: g.2.2.map fieldLine)
  String.intercalate "\n" lines3

/-- Field rendering of format_records (server.py lines 465-470): the same
two-element relation condition, and a comma join of str() of the elements for
every other list. -/
def renderFieldRecords (v : Json) : String :=
  match v with
  | Json.arr l =>
    if l.length == 2 && isPyInt (l.headD Json.null) then
      pyStr (l.getD 1 Json.null) ++ " (ID: " ++ pyStr (l.headD Json.null) ++ ")"
    else String.intercalate ", " (l.map pyStr)
  | j => pyStr j

/-- Lines emitted by format_records for one record (server.py lines 454-474). -/
def formatRecordsOne (rec : List (String × Json)) : List String :=
  let recId := (dictGet rec "id").getD (Json.str "?")
  let nm := headingName rec recId
  ("## " ++ nm ++ " (ID: " ++ pyStr recId ++ ")") ::
  (rec.filterMap fun kv =>
     if kv.1 == "id" || kv.1 == "display_name" || kv.1 == "name" || kv.1 == "__last_update" then none
     else if skipVal kv.2 then none
     else some ("- **" ++ kv.1 ++ "**: " ++ renderFieldRecords kv.2)) ++ [""]

/-- format_records (server.py lines 447-476). -/
def format_records (model : String) (recs : List (List (String × Json))) : String :=
  if recs.isEmpty then "No records found in " ++ model ++ "."
  else String.intercalate "\n"
    (("# Found " ++ toString recs.length ++ " records in " ++ model ++ "\n") ::
      (recs.map formatRecordsOne).flatten)

/-- Helper for asRecList. -/
def asRecListAux : List Json → Option (List (List (String × Json)))
  | [] => some []
  | Json.obj d :: rest => (asRecListAux rest).map (fun rl => d :: rl)
  | _ => none

/-- A list-of-records payload as seen by format_records; a non-list payload or
a non-dict element makes the Python iteration raise. -/
def asRecList : Json → Option (List (List (String × Json)))
  | Json.arr l => asRecListAux l
  | _ => none

/-- Placeholder for the str() of a non-OdooError Python exception; the except
Exception handler of search_records appends that text, which this model does
not determine. -/
def exnText : String := "unmodelled exception text"

/-- Tool search_records (server.py lines 61-109), from the raw backend reply
to the string returned to the caller: formats results and converts OdooError
and every other exception into a diagnostic string. -/
def search_records (model : String) (r : Json) : PyResult String :=
  match opSearch r with
  | PyResult.ok recs =>
    if truthy recs then
      match asRecList recs with
      | some rl => PyResult.ok (format_records model rl)
      | none => PyResult.ok ("Unexpected error: " ++ exnText)
    else PyResult.ok ("No records found in " ++ model ++ " matching the criteria.")
  | PyResult.odooError m => PyResult.ok ("Error searching " ++ model ++ ": " ++ m)
  | PyResult.exn => PyResult.ok ("Unexpected error: " ++ exnText)

/-- Tool get_record (server.py lines 112-142): converts OdooError into a
diagnostic string; other exceptions are not caught and propagate. -/
def get_record (model : String) (recordId : Int) (r : Json) : PyResult String :=
  match opRead r with
  | PyResult.ok rec =>
    if truthy rec then
      match rec with
      | Json.obj d => PyResult.ok (format_record model d)
      | _ => PyResult.exn
    else PyResult.ok ("Record " ++ toString recordId ++ " not found in " ++ model ++ ".")
  | PyResult.odooError m =>
    PyResult.ok ("Error reading " ++ model ++ " record " ++ toString recordId ++ ": " ++ m)
  | PyResult.exn => PyResult.exn

/-- Tool count_records (server.py lines 145-171): converts OdooError into a
diagnostic string; other exceptions propagate. -/
def count_records (model : String) (domain : Json) (r : Json) : PyResult String :=
  match opCount r with
  | PyResult.ok c =>
    PyResult.ok ("Found " ++ pyStr c ++ " records in " ++ model ++
      (if truthy domain then " matching " ++ pyStr domain else "") ++ ".")
  | PyResult.odooError m => PyResult.ok ("Error counting " ++ model ++ ": " ++ m)
  | PyResult.exn => PyResult.exn

/-- Resource handler resource_record (server.py lines 41-46): no exception
handling at all, every raised error propagates to the caller. -/
def resource_record (model : String) (r : Json) : PyResult String :=
  match opRead r with
  | PyResult.ok rec =>
    match rec with
    | Json.obj d => PyResult.ok (format_record model d)
    | _ => PyResult.exn
  | PyResult.odooError m => PyResult.odooError m
  | PyResult.exn => PyResult.exn


/-- Lookup after a dict assignment finds the assigned value. -/
theorem dictGet_setKey_self (d : List (String × Json)) (k : String) (v : Json) :
    dictGet (setKey d k v) k = some v := by
  induction d with
  | nil => simp [setKey, dictGet]
  | cons kv rest ih =>
    obtain ⟨k0, v0⟩ := kv
    by_cases h : k0 = k
    · subst h; simp [setKey, dictGet]
    · simp [setKey, dictGet, h, ih]

/-- A dict assignment leaves every other key unchanged. -/
theorem dictGet_setKey_other (d : List (String × Json)) (k k2 : String) (v : Json)
    (h : k2 ≠ k) :
    dictGet (setKey d k v) k2 = dictGet d k2 := by
  induction d with
  | nil => simp [setKey, dictGet, Ne.symm h]
  | cons kv rest ih =>
    obtain ⟨k0, v0⟩ := kv
    by_cases h0 : k0 = k
    · subst h0; simp [setKey, dictGet, Ne.symm h]
    · by_cases h2 : k0 = k2
      · subst h2; simp [setKey, dictGet, h0]
      · simp [setKey, dictGet, h0, h2, ih]

/-- Auth injection leaves every key other than api_key, user and password
unchanged. -/
theorem dictGet_requestParams_other (c : OdooClient) (d : List (String × Json)) (k : String)
    (h1 : k ≠ "api_key") (h2 : k ≠ "user") (h3 : k ≠ "password") :
    dictGet (requestParams c d) k = dictGet d k := by
  unfold requestParams
  split
  · exact dictGet_setKey_other _ _ _ _ h1
  · split
    · rw [dictGet_setKey_other _ _ _ _ h3, dictGet_setKey_other _ _ _ _ h2]
    · rfl

/-- Claim C1, counterexample: the empty-mapping reply, which carries neither a
result key nor an error key, is interpreted by OdooClient._request as a
Success with the empty mapping as payload. No malformed-reply error is
produced, contradicting the claim that such a reply yields an
ApplicationError/MalformedReplyError and never an empty Success. -/
theorem c1_counterexample :
    interpretReply (Json.obj []) = PyResult.ok (Json.obj []) := rfl

/-- Claim C1, amended: for every reply mapping that contains neither a
top-level result key nor a top-level error key, the reply-interpretation step
silently produces a Success whose payload is the empty mapping, and the
downstream operations then return their empty defaults (search returns the
empty list, get_server_info returns the empty mapping); no
MalformedReplyError exists in the code. -/
theorem c1_missing_both_keys (d : List (String × Json))
    (h1 : dictGet d "error" = none) (h2 : dictGet d "result" = none) :
    interpretReply (Json.obj d) = PyResult.ok (Json.obj []) ∧
    opSearch (Json.obj d) = PyResult.ok (Json.arr []) ∧
    opInfo (Json.obj d) = PyResult.ok (Json.obj []) := by
  have hi : interpretReply (Json.obj d) = PyResult.ok (Json.obj []) := by
    simp [interpretReply, h1, h2]
  refine ⟨hi, ?_, by simpa [opInfo] using hi⟩
  simp [opSearch, hi, PyResult.bind, softCheck, truthy, dictGet, projectKey]

/-- Claim C1, witness: the amended statement evaluated at the empty reply. -/
theorem c1_missing_both_keys_witness :
    interpretReply (Json.obj []) = PyResult.ok (Json.obj []) ∧
    opSearch (Json.obj []) = PyResult.ok (Json.arr []) ∧
    opInfo (Json.obj []) = PyResult.ok (Json.obj []) :=
  c1_missing_both_keys [] rfl rfl

/-- Claim C2: for every client profile and every caller-supplied argument
mapping, each auth field that the profile injects (api_key when the api_key
attribute is truthy; user and password when credentials are used) carries the
profile value in the final params mapping, overwriting a same-named
caller-supplied argument, so the authentication material actually sent does
not depend on forged caller arguments. -/
theorem c2_auth_overrides (c : OdooClient) (args : List (String × Json)) :
    (∀ k, c.api_key = some k → k ≠ "" →
      dictGet (requestParams c args) "api_key" = some (Json.str k)) ∧
    (∀ u pw, truthyS c.api_key = false → c.user = some u → u ≠ "" →
      c.password = some pw → pw ≠ "" →
      dictGet (requestParams c args) "user" = some (Json.str u) ∧
      dictGet (requestParams c args) "password" = some (Json.str pw)) := by
  constructor
  · intro k hk hne
    have ht : truthyS c.api_key = true := by simp [truthyS, hk, hne]
    rw [requestParams, if_pos ht, hk]
    simpa using dictGet_setKey_self args "api_key" (Json.str k)
  · intro u pw hak hu hune hp hpne
    have htu : truthyS c.user = true := by simp [truthyS, hu, hune]
    have htp : truthyS c.password = true := by simp [truthyS, hp, hpne]
    rw [requestParams, if_neg (by simp [hak]), if_pos (by simp [htu, htp])]
    constructor
    · rw [dictGet_setKey_other _ _ _ _ (by decide), hu]
      simpa using dictGet_setKey_self args "user" (Json.str u)
    · rw [hp]
      simpa using dictGet_setKey_self (setKey args "user" (Json.str (c.user.getD "")))
        "password" (Json.str pw)

/-- Claim C2, witness: a profile with api_key SECRET overrides a forged
api_key caller argument, and a credentials profile overrides a forged user
caller argument. -/
theorem c2_auth_overrides_witness :
    dictGet (requestParams ⟨"http://localhost:8069", none, some "SECRET", some "alice", some "pw", 30⟩
      [("model", Json.str "res.partner"), ("api_key", Json.str "forged")]) "api_key" =
      some (Json.str "SECRET") ∧
    dictGet (requestParams ⟨"http://localhost:8069", none, none, some "alice", some "pw", 30⟩
      [("user", Json.str "eve"), ("password", Json.str "x")]) "user" = some (Json.str "alice") :=
  ⟨(c2_auth_overrides ⟨"http://localhost:8069", none, some "SECRET", some "alice", some "pw", 30⟩
      [("model", Json.str "res.partner"), ("api_key", Json.str "forged")]).1 "SECRET" rfl (by decide),
   ((c2_auth_overrides ⟨"http://localhost:8069", none, none, some "alice", some "pw", 30⟩
      [("user", Json.str "eve"), ("password", Json.str "x")]).2 "alice" "pw" rfl rfl (by decide) rfl
      (by decide)).1⟩

/-- Claim C3, counterexample: get_server_info is an operation of the facade,
yet on a successful reply whose result carries a truthy error flag it returns
that result as a Success instead of failing with an ApplicationError, because
it performs no soft-error check (odoo_client.py lines 82-84). -/
theorem c3_counterexample :
    opInfo (Json.obj [("result", Json.obj [("error", Json.bool true), ("message", Json.str "nope")])]) =
      PyResult.ok (Json.obj [("error", Json.bool true), ("message", Json.str "nope")]) := rfl

/-- Claim C3, amended: every facade operation except get_server_info
(list_models, get_fields, search, read, count, create, write, unlink,
execute) fails with an OdooError whose message is taken from the message
field of the result, defaulting to the string Unknown error when that field
is absent, whenever the interpreted payload carries a truthy error flag;
get_server_info alone returns such a payload unchanged as a success. -/
theorem c3_soft_error_check (r : Json) (d : List (String × Json))
    (h1 : interpretReply r = PyResult.ok (Json.obj d))
    (h2 : truthy ((dictGet d "error").getD Json.null) = true) :
    opModels r = PyResult.odooError (pyStr ((dictGet d "message").getD (Json.str "Unknown error"))) ∧
    opFields r = PyResult.odooError (pyStr ((dictGet d "message").getD (Json.str "Unknown error"))) ∧
    opSearch r = PyResult.odooError (pyStr ((dictGet d "message").getD (Json.str "Unknown error"))) ∧
    opRead r = PyResult.odooError (pyStr ((dictGet d "message").getD (Json.str "Unknown error"))) ∧
    opCount r = PyResult.odooError (pyStr ((dictGet d "message").getD (Json.str "Unknown error"))) ∧
    opCreate r = PyResult.odooError (pyStr ((dictGet d "message").getD (Json.str "Unknown error"))) ∧
    opWrite r = PyResult.odooError (pyStr ((dictGet d "message").getD (Json.str "Unknown error"))) ∧
    opUnlink r = PyResult.odooError (pyStr ((dictGet d "message").getD (Json.str "Unknown error"))) ∧
    opExecute r = PyResult.odooError (pyStr ((dictGet d "message").getD (Json.str "Unknown error"))) ∧
    opInfo r = PyResult.ok (Json.obj d) := by
  have hs : softCheck (Json.obj d) =
      PyResult.odooError (pyStr ((dictGet d "message").getD (Json.str "Unknown error"))) := by
    simp [softCheck, h2]
  refine ⟨?_, ?_, ?_, ?_, ?_, ?_, ?_, ?_, ?_, ?_⟩ <;>
    simp [opModels, opFields, opSearch, opRead, opCount, opCreate, opWrite, opUnlink,
      opExecute, opInfo, h1, PyResult.bind, hs]

/-- Claim C3, witness: the amended statement evaluated at a soft-error reply
with message nope. -/
theorem c3_soft_error_check_witness :
    opModels (Json.obj [("result", Json.obj [("error", Json.bool true), ("message", Json.str "nope")])]) =
      PyResult.odooError "nope" ∧
    opInfo (Json.obj [("result", Json.obj [("error", Json.bool true), ("message", Json.str "nope")])]) =
      PyResult.ok (Json.obj [("error", Json.bool true), ("message", Json.str "nope")]) :=
  ⟨(c3_soft_error_check
      (Json.obj [("result", Json.obj [("error", Json.bool true), ("message", Json.str "nope")])])
      [("error", Json.bool true), ("message", Json.str "nope")] rfl rfl).1,
   (c3_soft_error_check
      (Json.obj [("result", Json.obj [("error", Json.bool true), ("message", Json.str "nope")])])
      [("error", Json.bool true), ("message", Json.str "nope")] rfl rfl).2.2.2.2.2.2.2.2.2⟩

/-- Claim C4, counterexample: a reply whose error object carries a data
member that is not a mapping makes the interpretation raise an uncaught
AttributeError (the chained .get call is applied to a non-dict), so it does
not yield an ApplicationError with a string form of the error object as the
claim states for every reply with a top-level error key. -/
theorem c4_counterexample :
    interpretReply (Json.obj [("error", Json.obj [("data", Json.int 0)])]) = PyResult.exn := rfl

/-- Claim C4, amended: for every reply whose top level contains an error key,
interpretation never yields a Success; it yields an OdooError whose message
is the extracted error.data.message prefixed by the fixed text Odoo error
when that nested field is present, and otherwise a string form of the whole
error object with the same prefix, except that an error mapping whose data
member is present but not itself a mapping raises an uncaught AttributeError
instead. -/
theorem c4_error_reply_classified (d : List (String × Json)) (e : Json)
    (h : dictGet d "error" = some e) :
    (∀ p, interpretReply (Json.obj d) ≠ PyResult.ok p) ∧
    interpretReply (Json.obj d) =
      (match e with
       | Json.obj ed =>
         (match (dictGet ed "data").getD (Json.obj []) with
          | Json.obj dd =>
            PyResult.odooError ("Odoo error: " ++
              pyStr ((dictGet dd "message").getD (Json.str (pyStr e))))
          | _ => PyResult.exn)
       | _ => PyResult.odooError ("Odoo error: " ++ pyStr e)) := by
  constructor
  · intro p
    simp only [interpretReply, h]
    cases errMsgOf e <;> simp
  · simp only [interpretReply, h]
    cases e with
    | null => simp [errMsgOf]
    | bool b => simp [errMsgOf]
    | int n => simp [errMsgOf]
    | str s => simp [errMsgOf]
    | arr l => simp [errMsgOf]
    | obj ed =>
      simp only [errMsgOf]
      cases hd : (dictGet ed "data").getD (Json.obj []) <;> simp [hd]

/-- Claim C4, witness: the amended statement evaluated at the reply whose
error.data.message is boom. -/
theorem c4_error_reply_classified_witness :
    interpretReply (Json.obj [("error", Json.obj [("data", Json.obj [("message", Json.str "boom")])])]) =
      PyResult.odooError "Odoo error: boom" :=
  (c4_error_reply_classified [("error", Json.obj [("data", Json.obj [("message", Json.str "boom")])])]
    (Json.obj [("data", Json.obj [("message", Json.str "boom")])]) rfl).2

/-- Claim C5: for every client profile, a truthy api_key makes the injected
auth fields exactly the api_key binding even when user and password are also
set; otherwise truthy user and password make them exactly the user and
password bindings; otherwise nothing is injected, and in every case the
JSON-RPC envelope is still built and sent with the resulting params, so there
is no local fast-fail for anonymous profiles. -/
theorem c5_auth_selection (c : OdooClient) :
    (∀ k, c.api_key = some k → k ≠ "" →
      requestParams c [] = [("api_key", Json.str k)]) ∧
    (∀ u pw, truthyS c.api_key = false → c.user = some u → u ≠ "" →
      c.password = some pw → pw ≠ "" →
      requestParams c [] = [("user", Json.str u), ("password", Json.str pw)]) ∧
    (truthyS c.api_key = false →
      (truthyS c.user = false ∨ truthyS c.password = false) →
      requestParams c [] = []) ∧
    (∀ params, jGet (requestEnvelope c params) "method" = some (Json.str "call") ∧
      jGet (requestEnvelope c params) "params" = some (Json.obj (requestParams c params))) := by
  refine ⟨?_, ?_, ?_, fun params => ⟨rfl, rfl⟩⟩
  · intro k hk hne
    have ht : truthyS c.api_key = true := by simp [truthyS, hk, hne]
    rw [requestParams, if_pos ht, hk]
    rfl
  · intro u pw hak hu hune hp hpne
    have htu : truthyS c.user = true := by simp [truthyS, hu, hune]
    have htp : truthyS c.password = true := by simp [truthyS, hp, hpne]
    rw [requestParams, if_neg (by simp [hak]), if_pos (by simp [htu, htp]), hu, hp]
    rfl
  · intro hak hup
    rw [requestParams, if_neg (by simp [hak]), if_neg ?hcond]
    rcases hup with h | h <;> simp [h]

/-- Claim C5, witness: the three selection cases evaluated at concrete
profiles, including a profile holding both an api_key and credentials. -/
theorem c5_auth_selection_witness :
    requestParams ⟨"u", none, some "K", some "alice", some "pw", 30⟩ [] = [("api_key", Json.str "K")] ∧
    requestParams ⟨"u", none, none, some "alice", some "pw", 30⟩ [] =
      [("user", Json.str "alice"), ("password", Json.str "pw")] ∧
    requestParams ⟨"u", none, none, none, some "pw", 30⟩ [] = [] :=
  ⟨(c5_auth_selection _).1 "K" rfl (by decide),
   (c5_auth_selection _).2.1 "alice" "pw" rfl rfl (by decide) rfl (by decide),
   (c5_auth_selection _).2.2.1 rfl (Or.inl rfl)⟩

/-- Claim C6: for every caller-supplied limit, the outgoing params of the
search_records tool carry min of the limit and the configured maximum as the
limit parameter; in particular a limit of 10000 with a configured maximum of
100 sends 100. -/
theorem c6_limit_clamped (c : OdooClient) (model : String) (domain fields order : Json)
    (limit offset maxRecords : Int) :
    dictGet (searchToolParams c model domain fields order limit offset maxRecords) "limit" =
      some (Json.int (min limit maxRecords)) ∧
    dictGet (searchToolParams c model domain fields order 10000 offset 100) "limit" =
      some (Json.int 100) := by
  have hgen : ∀ l m2 : Int,
      dictGet (searchToolParams c model domain fields order l offset m2) "limit" =
        some (Json.int (min l m2)) := by
    intro l m2
    rw [searchToolParams, dictGet_requestParams_other _ _ _ (by decide) (by decide) (by decide)]
    rfl
  refine ⟨hgen limit maxRecords, ?_⟩
  rw [hgen 10000 100, min_eq_right (by norm_num : (100 : Int) ≤ 10000)]

/-- Claim C7, counterexample: a successful reply whose payload carries a
non-mapping data member has no data.records sub-key, yet search faults with
an uncaught AttributeError instead of returning the empty-list default. -/
theorem c7_counterexample :
    interpretReply (Json.obj [("result", Json.obj [("data", Json.int 7)])]) =
      PyResult.ok (Json.obj [("data", Json.int 7)]) ∧
    opSearch (Json.obj [("result", Json.obj [("data", Json.int 7)])]) = PyResult.exn ∧
    opSearch (Json.obj [("result", Json.obj [("data", Json.int 7)])]) ≠ PyResult.ok (Json.arr []) := by
  refine ⟨rfl, rfl, ?_⟩
  intro hcontra
  exact PyResult.noConfusion hcontra

/-- Claim C7, amended: for every successful reply whose payload is a mapping
without a truthy error flag and whose data member is a mapping (or absent)
lacking the operation sub-key, search returns the empty list, count returns
0, read returns the empty mapping and create returns Python None; payloads
whose data member is present but not a mapping instead fault with an
AttributeError. -/
theorem c7_missing_subkey_defaults (r : Json) (d d2 : List (String × Json))
    (h1 : interpretReply r = PyResult.ok (Json.obj d))
    (h2 : truthy ((dictGet d "error").getD Json.null) = false)
    (h3 : dictGet d "data" = some (Json.obj d2) ∨ (dictGet d "data" = none ∧ d2 = [])) :
    (dictGet d2 "records" = none → opSearch r = PyResult.ok (Json.arr [])) ∧
    (dictGet d2 "count" = none → opCount r = PyResult.ok (Json.int 0)) ∧
    (dictGet d2 "record" = none → opRead r = PyResult.ok (Json.obj [])) ∧
    (dictGet d2 "id" = none → opCreate r = PyResult.ok Json.null) := by
  have hsc : softCheck (Json.obj d) = PyResult.ok (Json.obj d) := by simp [softCheck, h2]
  have hproj : ∀ k dflt, dictGet d2 k = none →
      projectKey (Json.obj d) k dflt = PyResult.ok dflt := by
    intro k dflt hk
    rcases h3 with h3 | ⟨h3, h3b⟩
    · simp [projectKey, h3, hk]
    · subst h3b; simp [projectKey, h3, dictGet]
  refine ⟨?_, ?_, ?_, ?_⟩ <;> intro hk <;>
    simp [opSearch, opCount, opRead, opCreate, h1, PyResult.bind, hsc, hproj _ _ hk]

/-- Claim C7, witness: the amended statement evaluated at a successful reply
whose payload is the empty mapping. -/
theorem c7_missing_subkey_defaults_witness :
    opSearch (Json.obj [("result", Json.obj [])]) = PyResult.ok (Json.arr []) ∧
    opCount (Json.obj [("result", Json.obj [])]) = PyResult.ok (Json.int 0) ∧
    opRead (Json.obj [("result", Json.obj [])]) = PyResult.ok (Json.obj []) ∧
    opCreate (Json.obj [("result", Json.obj [])]) = PyResult.ok Json.null := by
  have h := c7_missing_subkey_defaults (Json.obj [("result", Json.obj [])]) [] [] rfl rfl
    (Or.inr ⟨rfl, rfl⟩)
  exact ⟨h.1 rfl, h.2.1 rfl, h.2.2.1 rfl, h.2.2.2 rfl⟩

/-- Claim C8: formatting the record with id 5, name Acme, a relation value
[3, Bob] under partner_id and a six-element collection under tag_ids renders
the relation line with partner_id mapped to Bob (ID: 3) and the collection
line with the count 6 and a preview truncated to the first five items
followed by the ellipsis marker, exactly as produced by format_record. -/
theorem c8_format_record_example :
    format_record "res.partner"
      [("id", Json.int 5), ("name", Json.str "Acme"),
       ("partner_id", Json.arr [Json.int 3, Json.str "Bob"]),
       ("tag_ids", Json.arr [Json.int 1, Json.int 2, Json.int 3, Json.int 4, Json.int 5, Json.int 6])] =
    "# res.partner: Acme (ID: 5)\n\n## Basic Information\n- **name**: Acme\n\n## Related Records\n- **partner_id**: Bob (ID: 3)\n\n## Other Data\n- **tag_ids**: 6 items: [1, 2, 3, 4, 5]..." := rfl

/-- Claim C9, counterexample: the caller-facing resource_record handler has
no exception handling, so on an error reply the raised OdooError propagates
raw to the caller instead of being converted into a diagnostic string. -/
theorem c9_counterexample :
    resource_record "res.partner"
      (Json.obj [("error", Json.obj [("data", Json.obj [("message", Json.str "boom")])])]) =
      PyResult.odooError "Odoo error: boom" := rfl

/-- Claim C9, amended: the tool operations search_records, get_record and
count_records convert every OdooError failure (transport errors,
protocol-level errors and soft errors all surface as OdooError) into a short
diagnostic string naming the operation, the target model and the underlying
message; the resource handlers such as resource_record perform no such
conversion and let the exception propagate. -/
theorem c9_tool_error_strings (model : String) (recordId : Int) (domain : Json)
    (r1 r2 r3 : Json) (m1 m2 m3 : String)
    (h1 : opSearch r1 = PyResult.odooError m1)
    (h2 : opRead r2 = PyResult.odooError m2)
    (h3 : opCount r3 = PyResult.odooError m3) :
    search_records model r1 = PyResult.ok ("Error searching " ++ model ++ ": " ++ m1) ∧
    get_record model recordId r2 =
      PyResult.ok ("Error reading " ++ model ++ " record " ++ toString recordId ++ ": " ++ m2) ∧
    count_records model domain r3 = PyResult.ok ("Error counting " ++ model ++ ": " ++ m3) := by
  refine ⟨?_, ?_, ?_⟩
  · simp [search_records, h1]
  · simp [get_record, h2]
  · simp [count_records, h3]

/-- Claim C9, witness: the amended statement evaluated at an error reply with
message boom. -/
theorem c9_tool_error_strings_witness :
    search_records "res.partner"
      (Json.obj [("error", Json.obj [("data", Json.obj [("message", Json.str "boom")])])]) =
      PyResult.ok "Error searching res.partner: Odoo error: boom" ∧
    get_record "res.partner" 5
      (Json.obj [("error", Json.obj [("data", Json.obj [("message", Json.str "boom")])])]) =
      PyResult.ok "Error reading res.partner record 5: Odoo error: boom" ∧
    count_records "res.partner" Json.null
      (Json.obj [("error", Json.obj [("data", Json.obj [("message", Json.str "boom")])])]) =
      PyResult.ok "Error counting res.partner: Odoo error: boom" :=
  c9_tool_error_strings "res.partner" 5 Json.null
    (Json.obj [("error", Json.obj [("data", Json.obj [("message", Json.str "boom")])])])
    (Json.obj [("error", Json.obj [("data", Json.obj [("message", Json.str "boom")])])])
    (Json.obj [("error", Json.obj [("data", Json.obj [("message", Json.str "boom")])])])
    "Odoo error: boom" "Odoo error: boom" "Odoo error: boom" rfl rfl rfl

/-- Claim C10, counterexample: a two-element list whose first element is not
an integer receives collection rendering in format_record, so collection
rendering is not restricted to lists of lengths other than two as the claim
states. -/
theorem c10_counterexample :
    renderField (Json.arr [Json.str "a", Json.str "b"]) =
      Rendering.collection "2 items: [\x27a\x27, \x27b\x27]" ∧
    format_record "res.partner" [("id", Json.int 1), ("xs", Json.arr [Json.str "a", Json.str "b"])] =
      "# res.partner: ID 1 (ID: 1)\n\n\n## Other Data\n- **xs**: 2 items: [\x27a\x27, \x27b\x27]" :=
  ⟨rfl, rfl⟩

/-- Claim C10, amended: in both record formatters every field value that is a
list of exactly two elements whose first element is an integer (including a
Python bool) is rendered as a relation in the form label (ID: id) — in
particular the two-element id list [1, 2] renders as 2 (ID: 1) — and
collection rendering applies exactly to the non-empty lists that do not match
that shape: lists of other lengths, and two-element lists whose first element
is not an integer. -/
theorem c10_relation_rendering (a b : Json) (h : isPyInt a = true) :
    renderField (Json.arr [a, b]) =
      Rendering.relation (pyStr b ++ " (ID: " ++ pyStr a ++ ")") ∧
    renderFieldRecords (Json.arr [a, b]) = pyStr b ++ " (ID: " ++ pyStr a ++ ")" ∧
    renderField (Json.arr [Json.int 1, Json.int 2]) = Rendering.relation "2 (ID: 1)" ∧
    (∀ m : List Json, (∃ s, renderField (Json.arr m) = Rendering.collection s) ↔
      (m.isEmpty = false ∧ (m.length == 2 && isPyInt (m.headD Json.null)) = false)) := by
  refine ⟨?_, ?_, rfl, ?_⟩
  · simp [renderField, h, List.headD, List.getD]
  · simp [renderFieldRecords, h, List.headD, List.getD]
  · intro m
    constructor
    · rintro ⟨s, hs⟩
      simp only [renderField] at hs
      by_cases hc : (m.length == 2 && isPyInt (m.headD Json.null)) = true
      · rw [if_pos hc] at hs
        exact absurd hs (by intro hx; exact Rendering.noConfusion hx)
      · rw [if_neg hc] at hs
        by_cases he : m.isEmpty
        · rw [if_pos he] at hs
          exact absurd hs (by intro hx; exact Rendering.noConfusion hx)
        · exact ⟨by simpa using he, by simpa using hc⟩
    · rintro ⟨he, hc⟩
      refine ⟨toString m.length ++ " items: " ++ pyRepr (Json.arr (m.take 5)) ++
        (if m.length > 5 then "..." else ""), ?_⟩
      simp only [renderField]
      rw [if_neg (by rw [hc]; simp), if_neg (by rw [he]; simp)]

/-- Claim C10, witness: the amended statement evaluated at the relation value
[3, Bob]. -/
theorem c10_relation_rendering_witness :
    renderField (Json.arr [Json.int 3, Json.str "Bob"]) = Rendering.relation "Bob (ID: 3)" ∧
    renderFieldRecords (Json.arr [Json.int 3, Json.str "Bob"]) = "Bob (ID: 3)" :=
  ⟨(c10_relation_rendering (Json.int 3) (Json.str "Bob") rfl).1,
   (c10_relation_rendering (Json.int 3) (Json.str "Bob") rfl).2.1⟩

end Bridge
